import Mathlib

/-!
Shallow embedding of the booking/expense-entry form core
(`src/services/api.ts` = src/unnamed/part_000 first section, and the
`BookingForm` component = src/unnamed/part_000 second section /
src/src/components/BookingForm.tsx), with theorems settling the frozen
claims about it.

JavaScript strings are embedded as `String`; JS `undefined` for an
optional string field is `Option String`'s `none`; JS truthiness of a
string (`s` falsy iff `s === ''`) is `s ≠ ""`.  Decimal `number` input
for the amount field is embedded as `ℚ` (the decimal numerals the form
accepts are exact rationals; no float rounding is relevant at the
comparison against 0.01).  Fallible I/O (fetch, body parsing) is an
explicit outcome datatype; the gateway function over it is total,
mirroring the `try/catch` that swallows every exception.
-/

namespace Dasosmi

/-- One row of the reference options dataset (`OptionData` in api.ts).
Field `typeOrderDonation` embeds the column `'Type (Order/Donation)'`. -/
structure OptionData where
  typeOrderDonation : String
  Category : String
  Department : String
  fromDepartment : String
  toDepartment : String
  personalAccountDetails : String
deriving DecidableEq, Repr

/-- One row of the expense catalog (`ExpenseData` in api.ts). -/
structure ExpenseData where
  Items : String
  Details : String
  Budget : String
  Spent : String
  Incharge : String
deriving DecidableEq, Repr

/-- One donor row (`DonorData` in api.ts).  `mobileNoDot` embeds the
column `'Mobile No.'` and `mobileNo` the alternative spelling
`'Mobile No'`. -/
structure DonorData where
  donorId : String
  donorName : String
  Address : String
  panNo : String
  mobileNoDot : String
  mobileNo : String
deriving DecidableEq, Repr

/-- The flat booking record assembled by `onSubmit` (`BookingData`). -/
structure BookingData where
  id : String
  date : String
  fromDepartment : String
  toDepartment : String
  personalAccount : String
  donorDetails : String
  category : String
  item : String
  detail : String
  particulars : String
  amount : ℚ
deriving DecidableEq, Repr

/-- The uniform response envelope `ApiResponse<T> = {success, data?, message?}`. -/
structure ApiResponse (T : Type) where
  success : Bool
  data : Option T
  message : Option String
deriving DecidableEq, Repr

/-- Outcome of one `fetch` + `response.json()` round trip, as the
environment presents it to `makeRequest`:
* `networkError msg`: the `fetch` promise rejected with an `Error`
  whose `.message` is `msg` (connection failure);
* `response status body`: an HTTP response arrived with the given
  status code, and reading/parsing its body gave `body`. -/
inductive BodyParse (T : Type) where
  /-- Case where `response.json()` rejected with an `Error` whose message is given
  (non-parseable body). -/
  | parseError (message : String)
  /-- the body parsed to an envelope value. -/
  | parsed (value : ApiResponse T)
deriving DecidableEq, Repr

inductive FetchOutcome (T : Type) where
  | networkError (message : String)
  | response (status : Nat) (body : BodyParse T)
deriving DecidableEq, Repr

/-- Embedding of `Response.ok` per the fetch specification: status in 200..299. -/
def statusOk (status : Nat) : Bool :=
  200 ≤ status && status < 300

/-- Embedding of `ApiService.makeRequest`: runs the round trip and catches every
exception.  `!response.ok` is checked before the body is parsed and
throws `HTTP error! status: ${status}`; any caught `Error` is returned
as `{success:false, message: error.message}`; a successfully parsed
body is returned as-is. -/
def makeRequest {T : Type} (outcome : FetchOutcome T) : ApiResponse T :=
  match outcome with
  | .networkError msg => ⟨false, none, some msg⟩
  | .response status body =>
    if statusOk status then
      match body with
      | .parseError msg => ⟨false, none, some msg⟩
      | .parsed v => v
    else
      ⟨false, none, some ("HTTP error! status: " ++ toString status)⟩

/-- The failure modes named by the gateway contract: connection
failure, non-2xx status, non-parseable body. -/
def isFailureMode {T : Type} : FetchOutcome T → Prop
  | .networkError _ => True
  | .response status body =>
    statusOk status = false ∨ ∃ msg, body = .parseError msg

/-- The runtime `.message` carried by a connection-failure or
parse-failure `Error` is non-empty (true of every message the JS
runtime produces for these; `makeRequest` itself builds the HTTP-status
message). -/
def envMessagesNonempty {T : Type} : FetchOutcome T → Prop
  | .networkError msg => msg ≠ ""
  | .response _ (.parseError msg) => msg ≠ ""
  | .response _ (.parsed _) => True

/-- JS string `a || b`: `a` unless `a` is falsy (the empty string). -/
def jsOr (a b : String) : String :=
  if a = "" then b else a

/-- JS `x || ''` on an optional string field (`undefined` and `''` are
both falsy). -/
def jsOrEmpty : Option String → String
  | none => ""
  | some s => jsOr s ""

/-- Embedding of `getFilteredCategories`: rows with `Department === 'Books Dasosmi'`
and `'Type (Order/Donation)' === 'Expense'`, mapped to `Category`, then
`.filter(Boolean)` drops empty strings.  (Note: no `Set` is applied,
unlike `getUniqueOptions`.) -/
def getFilteredCategories (options : List OptionData) : List String :=
  ((options.filter
      (fun opt => opt.Department == "Books Dasosmi" && opt.typeOrderDonation == "Expense")).map
    (fun opt => opt.Category)).filter (fun s => s != "")

/-- Embedding of `getDetailsForItem`: rows with `Items === selectedItem`, mapped to
`Details`, then `.filter(Boolean)`.  (No `Set` is applied.) -/
def getDetailsForItem (expenses : List ExpenseData) (selectedItem : String) : List String :=
  ((expenses.filter (fun exp => exp.Items == selectedItem)).map
    (fun exp => exp.Details)).filter (fun s => s != "")

/-- Embedding of `showCategory = fromDepartment === 'Books-Dasosmi'`.  The four
visibility flags are computed from the watched pair
`(fromDepartment, toDepartment)`; each is embedded as a function of the
whole pair even when the source expression reads only one component. -/
def showCategory (fromDepartment toDepartment : String) : Bool :=
  fromDepartment == "Books-Dasosmi"

/-- Embedding of `showItemsDetails = fromDepartment === 'Expenses-Dasosmi'`. -/
def showItemsDetails (fromDepartment toDepartment : String) : Bool :=
  fromDepartment == "Expenses-Dasosmi"

/-- Embedding of `showDonorDetails = fromDepartment === 'Dasosmi' || fromDepartment === 'Corporate Dasosmi'`. -/
def showDonorDetails (fromDepartment toDepartment : String) : Bool :=
  fromDepartment == "Dasosmi" || fromDepartment == "Corporate Dasosmi"

/-- Embedding of `showPersonalAccount = toDepartment === 'Personal Account'`. -/
def showPersonalAccount (fromDepartment toDepartment : String) : Bool :=
  toDepartment == "Personal Account"

/-- A calendar date as held by the form's `Date` value (only the
year/month/day components matter to `format(date, 'yyyy-MM-dd')`). -/
structure JsDate where
  year : Nat
  month : Nat
  day : Nat
deriving DecidableEq, Repr

/-- The decimal digit character for `n`'s given decimal place. -/
def digitChar (n : Nat) : Char :=
  Nat.digitChar (n % 10)

/-- Token `MM`/`dd` of `date-fns`: two zero-padded decimal digits (the
month/day components of a `Date` are always below 100). -/
def pad2 (n : Nat) : String :=
  String.mk [digitChar (n / 10), digitChar n]

/-- Token `yyyy` of `date-fns`: four zero-padded decimal digits (calendar
years of interest are below 10000, where this matches `date-fns`). -/
def pad4 (n : Nat) : String :=
  String.mk [digitChar (n / 1000), digitChar (n / 100), digitChar (n / 10), digitChar n]

/-- Embedding of `format(date, 'yyyy-MM-dd')`. -/
def formatDate (d : JsDate) : String :=
  pad4 d.year ++ "-" ++ pad2 d.month ++ "-" ++ pad2 d.day

/-- The form's field values (`BookingFormData` plus the pre-validation
possibility that no date is set).  Optional fields are `Option String`
(`none` = `undefined`, i.e. never touched); `fromDepartment`,
`toDepartment`, `particulars` are strings with `""` for blank. -/
structure FormState where
  date : Option JsDate
  fromDepartment : String
  toDepartment : String
  personalAccount : Option String
  donorDetails : Option String
  category : Option String
  item : Option String
  detail : Option String
  particulars : String
  amount : ℚ
deriving DecidableEq, Repr

/-- Embedding of `bookingSchema` acceptance: `z.date()` requires a date value;
`z.string().min(1)` on fromDepartment, toDepartment, particulars;
`z.coerce.number().min(0.01)` on amount (here `0.01 = mkRat 1 100`);
the five optional string fields carry no constraint. -/
def validateBooking (f : FormState) : Bool :=
  f.date.isSome && f.fromDepartment != "" && f.toDepartment != "" &&
    f.particulars != "" && decide (mkRat 1 100 ≤ f.amount)

/-- The record assembled inside `onSubmit` from validated form data:
`id` is the freshly generated token, `date` is formatted `yyyy-MM-dd`,
each optional field is `data.x || ''`, and `particulars`/`amount` are
passed through. -/
def buildBookingData (freshId : String) (f : FormState) : BookingData :=
  { id := freshId
    date := match f.date with
            | some d => formatDate d
            | none => ""
    fromDepartment := f.fromDepartment
    toDepartment := f.toDepartment
    personalAccount := jsOrEmpty f.personalAccount
    donorDetails := jsOrEmpty f.donorDetails
    category := jsOrEmpty f.category
    item := jsOrEmpty f.item
    detail := jsOrEmpty f.detail
    particulars := f.particulars
    amount := f.amount }

/-- One field of the JSON wire body. -/
inductive JsValue where
  | str (s : String)
  | num (q : ℚ)
deriving DecidableEq, Repr

/-- The POST body `JSON.stringify({action: 'saveBooking', ...bookingData})`:
a flat object whose keys are `action` followed by the eleven record
keys, every key always present. -/
def serializeBooking (b : BookingData) : List (String × JsValue) :=
  [("action", .str "saveBooking"),
   ("id", .str b.id),
   ("date", .str b.date),
   ("fromDepartment", .str b.fromDepartment),
   ("toDepartment", .str b.toDepartment),
   ("personalAccount", .str b.personalAccount),
   ("donorDetails", .str b.donorDetails),
   ("category", .str b.category),
   ("item", .str b.item),
   ("detail", .str b.detail),
   ("particulars", .str b.particulars),
   ("amount", .num b.amount)]

/-- Result of one submit attempt's validation stage:
`form.handleSubmit(onSubmit)` invokes `onSubmit` (which performs the
network write) only when the resolver accepts; otherwise no request is
made. -/
inductive SubmitGate where
  | rejected
  | sent (record : BookingData)
deriving DecidableEq, Repr

/-- The pre-network part of the submit pipeline: validate, and only on
acceptance assemble the record that the write request will carry. -/
def handleSubmit (f : FormState) (freshId : String) : SubmitGate :=
  if validateBooking f then .sent (buildBookingData freshId f) else .rejected

/-- Component state touched by `loadData` at mount.  The three
reference slots start `[]` (the `useState` initials); `loading` starts
`true`; `errorToastFired` records whether the `catch` branch's error
toast ran. -/
structure LoadedState where
  options : List OptionData
  expenses : List ExpenseData
  donors : List DonorData
  errorToastFired : Bool
  loading : Bool
deriving DecidableEq, Repr

/-- Embedding of `if (res.success && res.data) setSlot(res.data)`: the slot is
populated exactly when the envelope has `success` and a present `data`
(a JS array, even empty, is truthy); otherwise it keeps its initial
`[]`. -/
def slotFrom {T : Type} (res : ApiResponse (List T)) : List T :=
  if res.success && res.data.isSome then res.data.getD [] else []

/-- Embedding of `loadData`: the three reference reads are issued via
`Promise.all`; each is a `makeRequest` call, which catches every
exception, so the `try` body never throws and the `catch`'s error
toast never runs; `finally` clears `loading`. -/
def loadData (optionsOutcome : FetchOutcome (List OptionData))
    (expensesOutcome : FetchOutcome (List ExpenseData))
    (donorsOutcome : FetchOutcome (List DonorData)) : LoadedState :=
  let optionsRes := makeRequest optionsOutcome
  let expensesRes := makeRequest expensesOutcome
  let donorsRes := makeRequest donorsOutcome
  { options := slotFrom optionsRes
    expenses := slotFrom expensesRes
    donors := slotFrom donorsRes
    errorToastFired := false
    loading := false }

/-- Embedding of `form.reset({date: new Date(), particulars: '', amount: 0})`: the
form returns to its defaults (today's date set, every other field
cleared). -/
def defaultFormState (today : JsDate) : FormState :=
  { date := some today
    fromDepartment := ""
    toDepartment := ""
    personalAccount := none
    donorDetails := none
    category := none
    item := none
    detail := none
    particulars := ""
    amount := 0 }

/-- The toast shown at the end of a submit attempt. -/
inductive SubmitToast where
  | successToast (message : String)
  | errorToast (message : String)
deriving DecidableEq, Repr

/-- Form-side state across one submit attempt. -/
structure SubmitState where
  formValues : FormState
  submitting : Bool
deriving DecidableEq, Repr

/-- The body of `onSubmit` once validation has passed, as a function of
the write's outcome: `setSubmitting(true)`; build and send the record;
if the envelope has `success`, toast success and reset the form;
otherwise `throw new Error(result.message || 'Failed to save booking')`,
caught below and shown as an error toast; `finally` clears
`submitting`.  (`makeRequest` never rejects, so the thrown error is the
only exception.) -/
def onSubmitStep (st : SubmitState) (freshId : String) (today : JsDate)
    (writeOutcome : FetchOutcome BookingData) : SubmitState × SubmitToast :=
  let bookingData := buildBookingData freshId st.formValues
  let result := makeRequest writeOutcome
  if result.success then
    ({ formValues := defaultFormState today, submitting := false },
     .successToast ("Booking saved successfully with ID: " ++ bookingData.id))
  else
    ({ formValues := st.formValues, submitting := false },
     .errorToast (jsOr (result.message.getD "") "Failed to save booking"))

/-- The mobile number shown in the donor button label and each donor
`CommandItem` label:
`donor['Mobile No.'] || donor['Mobile No'] || 'No Mobile'`. -/
def displayMobile (d : DonorData) : String :=
  jsOr (jsOr d.mobileNoDot d.mobileNo) "No Mobile"

/-- The mobile number inside each donor `CommandItem`'s search `value`:
`donor['Mobile No.'] || donor['Mobile No'] || ''`. -/
def searchMobile (d : DonorData) : String :=
  jsOr (jsOr d.mobileNoDot d.mobileNo) ""

/-- The donor `CommandItem` display label:
``${name} - ${mobile} - ${address}`` with the `'No Mobile'` fallback. -/
def donorItemLabel (d : DonorData) : String :=
  d.donorName ++ " - " ++ displayMobile d ++ " - " ++ d.Address

/-- The donor `CommandItem` search-candidate `value`:
``${name} ${mobile} ${address}`` with the `''` fallback. -/
def donorSearchValue (d : DonorData) : String :=
  d.donorName ++ " " ++ searchMobile d ++ " " ++ d.Address

/-- Base-36 digit character, as `Number.prototype.toString(36)` uses:
`0`-`9` then lowercase `a`-`z`. -/
def b36Char (d : Fin 36) : Char :=
  if d.val < 10 then Char.ofNat ('0'.toNat + d.val)
  else Char.ofNat ('a'.toNat + (d.val - 10))

/-- Embedding of `r.toString(36)` for `r = Math.random() ∈ [0,1)`, with `r` given by
the finite list of fractional base-36 digits the runtime prints (every
IEEE double in `[0,1)` has a finite shortest base-36 expansion, and the
runtime prints no trailing zeros): `"0"` when there are no fractional
digits (r = 0), else `"0." ++ digits`. -/
def jsToString36 (digits : List (Fin 36)) : String :=
  if digits = [] then "0" else "0." ++ String.mk (digits.map b36Char)

/-- Embedding of `generateId = Math.random().toString(36).substr(2, 8)`: drop the
leading `"0."` and keep at most 8 characters. -/
def generateId (digits : List (Fin 36)) : String :=
  String.mk (((jsToString36 digits).data.drop 2).take 8)

/-- The keys of the POST body, in serialization order: the `action`
discriminator followed by the eleven record keys. -/
def wireKeys : List String :=
  ["action", "id", "date", "fromDepartment", "toDepartment", "personalAccount",
   "donorDetails", "category", "item", "detail", "particulars", "amount"]

/-- The eleven `BookingData` keys. -/
def bookingKeys : List String :=
  wireKeys.drop 1

/-- Checks the `YYYY-MM-DD` shape: exactly ten characters, decimal
digits in the year/month/day positions, hyphens at positions 4 and 7. -/
def isIsoDateShape (s : String) : Bool :=
  match s.data with
  | [y1, y2, y3, y4, h1, m1, m2, h2, d1, d2] =>
    y1.isDigit && y2.isDigit && y3.isDigit && y4.isDigit && h1 == '-' &&
      m1.isDigit && m2.isDigit && h2 == '-' && d1.isDigit && d2.isDigit
  | _ => false

/-- Modelled from the spec's words (C1): the *distinct* (duplicate-free)
categories of the matching rows — what the claim asserts the code
offers.  Compared against `getFilteredCategories`. -/
def specDistinctCategories (options : List OptionData) : List String :=
  (getFilteredCategories options).dedup

/-- Modelled from the spec's words (C6): the *distinct* detail strings
of the rows matching the chosen item.  Compared against
`getDetailsForItem`. -/
def specDistinctDetails (expenses : List ExpenseData) (selectedItem : String) : List String :=
  (getDetailsForItem expenses selectedItem).dedup

/-- Row-wise restatement of the category pipeline: one output entry per
matching row with a non-empty category, in row order. -/
def rowwiseCategories (options : List OptionData) : List String :=
  options.foldr
    (fun opt acc =>
      if opt.Department = "Books Dasosmi" ∧ opt.typeOrderDonation = "Expense" ∧ opt.Category ≠ ""
      then opt.Category :: acc else acc) []

/-- Row-wise restatement of the detail pipeline: one output entry per
row matching the chosen item with a non-empty detail, in row order. -/
def rowwiseDetails (expenses : List ExpenseData) (selectedItem : String) : List String :=
  expenses.foldr
    (fun exp acc =>
      if exp.Items = selectedItem ∧ exp.Details ≠ ""
      then exp.Details :: acc else acc) []

/-- Modelled from the spec's words (C8): the first non-empty of the two
mobile-number spellings, `'Mobile No.'` checked before `'Mobile No'`. -/
def firstNonEmptyMobile (d : DonorData) : String :=
  if d.mobileNoDot ≠ "" then d.mobileNoDot else d.mobileNo

/-- A base-36 digit character: `0`-`9` or lowercase `a`-`z`. -/
def isBase36Char (c : Char) : Bool :=
  c.isDigit || ('a' ≤ c && c ≤ 'z')

/-- Fixture: an options row in the filtered category population. -/
def booksRow : OptionData :=
  ⟨"Expense", "Stationery", "Books Dasosmi", "Books-Dasosmi", "Personal Account", ""⟩

/-- Fixture: the spec's three-row expense catalog. -/
def exCatalog : List ExpenseData :=
  [⟨"A", "x", "", "", ""⟩, ⟨"A", "y", "", "", ""⟩, ⟨"B", "z", "", "", ""⟩]

/-- Fixture: an expense row whose detail repeats another row's. -/
def dupDetailCatalog : List ExpenseData :=
  [⟨"A", "x", "", "", ""⟩, ⟨"A", "x", "", "", ""⟩]

/-- Fixture: the spec's donor with an empty `'Mobile No.'` and
`'Mobile No' = "98765"`. -/
def donorEx : DonorData :=
  ⟨"D1", "Asha", "12 Main Rd", "", "", "98765"⟩

/-- Fixture: a fully valid form whose amount is 0.005 — positive but
below the schema's 0.01 floor. -/
def halfCentForm : FormState :=
  ⟨some ⟨2026, 1, 15⟩, "Dasosmi", "Personal Account", none, none, none, none, none,
   "donation entry", mkRat 1 200⟩

/-- Fixture: a fully valid form with amount 0. -/
def zeroAmountForm : FormState :=
  ⟨some ⟨2026, 1, 15⟩, "Dasosmi", "Personal Account", none, none, none, none, none,
   "donation entry", 0⟩

/-- Fixture: a valid form carrying a category value entered while
`fromDepartment` was `'Books-Dasosmi'`, after `fromDepartment` was then
changed to `'Dasosmi'` (the form library keeps values of fields that
are no longer rendered). -/
def staleCategoryForm : FormState :=
  ⟨some ⟨2026, 3, 5⟩, "Dasosmi", "Personal Account", none, none, some "Knowledge Books",
   none, none, "donation entry", 100⟩

/-- Fixture: a fully valid form used for witnesses. -/
def okForm : FormState :=
  ⟨some ⟨2026, 10, 11⟩, "Dasosmi", "Personal Account", none, none, none, none, none,
   "donation entry", mkRat 1 100⟩

/-- Fixture: a read outcome whose envelope reports failure. -/
def failingOptionsOutcome : FetchOutcome (List OptionData) :=
  .response 200 (.parsed ⟨false, none, some "options sheet missing"⟩)

/-- Fixture: a successful expenses read carrying one row. -/
def okExpensesOutcome : FetchOutcome (List ExpenseData) :=
  .response 200 (.parsed ⟨true, some [⟨"A", "x", "", "", ""⟩], none⟩)

/-- Fixture: a successful donors read carrying one row. -/
def okDonorsOutcome : FetchOutcome (List DonorData) :=
  .response 200 (.parsed ⟨true, some [donorEx], none⟩)

/-- Helper: the category pipeline equals its row-wise restatement. -/
theorem getFilteredCategories_eq_rowwise (options : List OptionData) :
    getFilteredCategories options = rowwiseCategories options := by
  induction options with
  | nil => rfl
  | cons opt rest ih =>
    unfold getFilteredCategories rowwiseCategories
    unfold getFilteredCategories rowwiseCategories at ih
    simp only [List.filter_cons, List.foldr_cons]
    by_cases hd : opt.Department = "Books Dasosmi"
    · by_cases ht : opt.typeOrderDonation = "Expense"
      · by_cases hc : opt.Category = ""
        · simp [hd, ht, hc, ih]
        · simp [hd, ht, hc, ih]
      · simp [hd, ht, ih]
    · simp [hd, ih]

/-- Helper: membership in the offered category options. -/
theorem mem_getFilteredCategories (options : List OptionData) (a : String) :
    a ∈ getFilteredCategories options ↔
      a ≠ "" ∧ ∃ opt, opt ∈ options ∧ opt.Department = "Books Dasosmi" ∧
        opt.typeOrderDonation = "Expense" ∧ opt.Category = a := by
  simp only [getFilteredCategories, List.mem_filter, List.mem_map, bne_iff_ne, ne_eq,
    Bool.and_eq_true, beq_iff_eq]
  tauto

/-- Claim C1, amended: for every loaded options list, when
`fromDepartment = "Books-Dasosmi"` the category options offered are the
`Category` values of exactly those rows whose `Department` is
`"Books Dasosmi"` and whose type is `"Expense"`, in row order, empty
categories excluded — one entry per matching row, duplicates retained
(the list is not deduplicated). -/
theorem filteredCategories_rowwise (options : List OptionData) :
    getFilteredCategories options = rowwiseCategories options ∧
    ∀ a : String, a ∈ getFilteredCategories options ↔
      a ≠ "" ∧ ∃ opt, opt ∈ options ∧ opt.Department = "Books Dasosmi" ∧
        opt.typeOrderDonation = "Expense" ∧ opt.Category = a :=
  ⟨getFilteredCategories_eq_rowwise options, fun a => mem_getFilteredCategories options a⟩

/-- Claim C1, counterexample: on an options list with two identical
matching rows the offered category options are not duplicate-free, so
they do not equal the distinct category values the claim asserts. -/
theorem filteredCategories_not_distinct :
    getFilteredCategories [booksRow, booksRow] = ["Stationery", "Stationery"] ∧
    specDistinctCategories [booksRow, booksRow] = ["Stationery"] ∧
    ¬ (getFilteredCategories [booksRow, booksRow]).Nodup := by decide

/-- Helper: the detail pipeline equals its row-wise restatement. -/
theorem getDetailsForItem_eq_rowwise (expenses : List ExpenseData) (selectedItem : String) :
    getDetailsForItem expenses selectedItem = rowwiseDetails expenses selectedItem := by
  induction expenses with
  | nil => rfl
  | cons exp rest ih =>
    unfold getDetailsForItem rowwiseDetails
    unfold getDetailsForItem rowwiseDetails at ih
    simp only [List.filter_cons, List.foldr_cons]
    by_cases hi : exp.Items = selectedItem
    · by_cases hdet : exp.Details = ""
      · simp [hi, hdet, ih]
      · simp [hi, hdet, ih]
    · simp [hi, ih]

/-- Helper: membership in the offered detail options. -/
theorem mem_getDetailsForItem (expenses : List ExpenseData) (selectedItem a : String) :
    a ∈ getDetailsForItem expenses selectedItem ↔
      a ≠ "" ∧ ∃ exp, exp ∈ expenses ∧ exp.Items = selectedItem ∧ exp.Details = a := by
  simp only [getDetailsForItem, List.mem_filter, List.mem_map, bne_iff_ne, ne_eq,
    beq_iff_eq]
  tauto

/-- Claim C6, amended: for every expense catalog and chosen item, the
detail options offered are the non-empty `Details` strings of exactly
the rows whose `Items` equals the chosen item, in row order, one entry
per matching row (duplicates retained, not deduplicated); an item with
zero matching rows yields the empty list, and the spec's example
catalog yields `["x","y"]` for `"A"`, `["z"]` for `"B"`, `[]` for an
absent item. -/
theorem detailsForItem_rowwise (expenses : List ExpenseData) (selectedItem : String) :
    getDetailsForItem expenses selectedItem = rowwiseDetails expenses selectedItem ∧
    (∀ a : String, a ∈ getDetailsForItem expenses selectedItem ↔
      a ≠ "" ∧ ∃ exp, exp ∈ expenses ∧ exp.Items = selectedItem ∧ exp.Details = a) ∧
    getDetailsForItem exCatalog "A" = ["x", "y"] ∧
    getDetailsForItem exCatalog "B" = ["z"] ∧
    getDetailsForItem exCatalog "C" = [] :=
  ⟨getDetailsForItem_eq_rowwise expenses selectedItem,
   fun a => mem_getDetailsForItem expenses selectedItem a,
   by decide, by decide, by decide⟩

/-- Claim C6, counterexample: on a catalog with two rows sharing item
`"A"` and detail `"x"`, the offered detail options are `["x","x"]`, not
the distinct detail strings the claim asserts. -/
theorem detailsForItem_not_distinct :
    getDetailsForItem dupDetailCatalog "A" = ["x", "x"] ∧
    specDistinctDetails dupDetailCatalog "A" = ["x"] ∧
    ¬ (getDetailsForItem dupDetailCatalog "A").Nodup := by decide

/-- Claim C3: for every request outcome in a failure mode (connection
failure, non-2xx status, non-parseable body), `makeRequest` returns —
it is a total function, so it never raises — an envelope with
`success = false`, no data, and a non-empty message (given that the
runtime's own error messages are non-empty; the HTTP-status message is
built by the code itself). -/
theorem makeRequest_collapses_failures {T : Type} (outcome : FetchOutcome T)
    (hfail : isFailureMode outcome) (henv : envMessagesNonempty outcome) :
    (makeRequest outcome).success = false ∧ (makeRequest outcome).data = none ∧
    ∃ m, (makeRequest outcome).message = some m ∧ m ≠ "" := by
  cases outcome with
  | networkError msg => exact ⟨rfl, rfl, msg, rfl, henv⟩
  | response status body =>
    simp only [makeRequest]
    by_cases hok : statusOk status = true
    · rw [if_pos hok]
      cases body with
      | parseError msg => exact ⟨rfl, rfl, msg, rfl, henv⟩
      | parsed v =>
        rcases hfail with h | ⟨m, hm⟩
        · rw [hok] at h; cases h
        · cases hm
    · rw [if_neg hok]
      refine ⟨rfl, rfl, "HTTP error! status: " ++ toString status, rfl, ?_⟩
      intro h
      have hd := congrArg String.data h
      rw [String.data_append] at hd
      simp at hd

/-- Claim C3, witness: a concrete connection failure is collapsed into
a failure envelope. -/
theorem makeRequest_collapses_failures_witness :
    isFailureMode (T := Unit) (.networkError "Failed to fetch") ∧
    envMessagesNonempty (T := Unit) (.networkError "Failed to fetch") ∧
    ((makeRequest (T := Unit) (.networkError "Failed to fetch")).success = false ∧
     (makeRequest (T := Unit) (.networkError "Failed to fetch")).data = none ∧
     ∃ m, (makeRequest (T := Unit) (.networkError "Failed to fetch")).message = some m ∧ m ≠ "") :=
  ⟨trivial, by show ("Failed to fetch" : String) ≠ ""; decide,
   makeRequest_collapses_failures _ trivial (by show ("Failed to fetch" : String) ≠ ""; decide)⟩

/-- Claim C4, amended: submission validation accepts exactly when the
date is present, `fromDepartment`, `toDepartment` and `particulars` are
non-empty, and the amount is at least 0.01 (`mkRat 1 100 = 1/100`);
rejection happens before any network call (`handleSubmit` yields
`rejected` and builds no record exactly when validation fails), and any
amount ≤ 0 is rejected. -/
theorem validation_characterization (f : FormState) (freshId : String) :
    (validateBooking f = true ↔
      f.date.isSome = true ∧ f.fromDepartment ≠ "" ∧ f.toDepartment ≠ "" ∧
      f.particulars ≠ "" ∧ mkRat 1 100 ≤ f.amount) ∧
    (handleSubmit f freshId = .rejected ↔ validateBooking f = false) ∧
    (f.amount ≤ 0 → handleSubmit f freshId = .rejected) ∧
    mkRat 1 100 = 1/100 := by
  have hchar : validateBooking f = true ↔
      f.date.isSome = true ∧ f.fromDepartment ≠ "" ∧ f.toDepartment ≠ "" ∧
      f.particulars ≠ "" ∧ mkRat 1 100 ≤ f.amount := by
    simp [validateBooking, and_assoc]
  have hrej : handleSubmit f freshId = .rejected ↔ validateBooking f = false := by
    unfold handleSubmit
    cases hv : validateBooking f <;> simp [hv]
  refine ⟨hchar, hrej, ?_, by norm_num [Rat.mkRat_eq_div]⟩
  intro hle
  have h01 : (0 : ℚ) < mkRat 1 100 := by decide
  have hno : ¬ (mkRat 1 100 ≤ f.amount) := fun hc => absurd (hc.trans hle) (not_le.mpr h01)
  have hfalse : validateBooking f = false := by
    cases hv : validateBooking f
    · rfl
    · exact absurd (hchar.mp hv).2.2.2.2 hno
  exact hrej.mpr hfalse

/-- Claim C4, witness: a form with amount 0 is rejected before the
network stage. -/
theorem validation_characterization_witness :
    zeroAmountForm.amount ≤ 0 ∧ handleSubmit zeroAmountForm "id1" = SubmitGate.rejected :=
  ⟨by decide, (validation_characterization zeroAmountForm "id1").2.2.1 (by decide)⟩

/-- Claim C4, counterexample: a form whose every other field is valid
and whose amount is 0.005 — a number strictly greater than 0 — is
rejected, so acceptance is not characterized by `amount > 0` as the
claim states; 0.01 is the actual floor. -/
theorem validation_rejects_small_positive :
    halfCentForm.date.isSome = true ∧ halfCentForm.fromDepartment ≠ "" ∧
    halfCentForm.toDepartment ≠ "" ∧ halfCentForm.particulars ≠ "" ∧
    0 < halfCentForm.amount ∧ validateBooking halfCentForm = false ∧
    handleSubmit halfCentForm "id1" = .rejected := by decide

/-- Helper: the digit-place character is always a decimal digit. -/
theorem digitChar_isDigit (n : Nat) : (digitChar n).isDigit = true := by
  have h : n % 10 < 10 := Nat.mod_lt _ (by omega)
  have hall : ∀ m : Fin 10, (Nat.digitChar m.val).isDigit = true := by decide
  simpa [digitChar] using hall ⟨n % 10, h⟩

/-- Helper: the formatted date always has the `YYYY-MM-DD` shape. -/
theorem isIsoDateShape_formatDate (d : JsDate) : isIsoDateShape (formatDate d) = true := by
  unfold formatDate pad4 pad2
  unfold isIsoDateShape
  simp [String.data_append, digitChar_isDigit]

/-- Claim C2, amended: every submitted record serializes with all
eleven keys always present (preceded only by the `action`
discriminator), its date is the form date formatted `YYYY-MM-DD`, and
every optional field that was never set serializes as the empty string,
never omitted.  (The visibility clause of the claim is refuted
separately: a value entered while its section was visible is serialized
as-is even if the section is hidden at submission time.) -/
theorem booking_record_wire_shape (freshId : String) (f : FormState) (d : JsDate)
    (hd : f.date = some d) :
    (serializeBooking (buildBookingData freshId f)).map Prod.fst = wireKeys ∧
    wireKeys = "action" :: bookingKeys ∧
    (∀ k, k ∈ bookingKeys → ((serializeBooking (buildBookingData freshId f)).lookup k).isSome = true) ∧
    (buildBookingData freshId f).date = formatDate d ∧
    isIsoDateShape ((buildBookingData freshId f).date) = true ∧
    (buildBookingData freshId f).id = freshId ∧
    (f.personalAccount = none → (buildBookingData freshId f).personalAccount = "") ∧
    (f.donorDetails = none → (buildBookingData freshId f).donorDetails = "") ∧
    (f.category = none → (buildBookingData freshId f).category = "") ∧
    (f.item = none → (buildBookingData freshId f).item = "") ∧
    (f.detail = none → (buildBookingData freshId f).detail = "") := by
  have hdate : (buildBookingData freshId f).date = formatDate d := by
    simp [buildBookingData, hd]
  refine ⟨rfl, rfl, ?_, hdate, ?_, rfl, ?_, ?_, ?_, ?_, ?_⟩
  · intro k hk
    fin_cases hk <;> rfl
  · rw [hdate]; exact isIsoDateShape_formatDate d
  all_goals intro h; simp [buildBookingData, jsOrEmpty, h]

/-- Claim C2, witness: a concrete valid form serializes with a
well-formed date and an empty category. -/
theorem booking_record_wire_shape_witness :
    okForm.date = some ⟨2026, 10, 11⟩ ∧
    (buildBookingData "ab12tx9q" okForm).date = formatDate ⟨2026, 10, 11⟩ ∧
    isIsoDateShape ((buildBookingData "ab12tx9q" okForm).date) = true ∧
    (buildBookingData "ab12tx9q" okForm).category = "" :=
  ⟨rfl, (booking_record_wire_shape "ab12tx9q" okForm ⟨2026, 10, 11⟩ rfl).2.2.2.1,
   (booking_record_wire_shape "ab12tx9q" okForm ⟨2026, 10, 11⟩ rfl).2.2.2.2.1,
   (booking_record_wire_shape "ab12tx9q" okForm ⟨2026, 10, 11⟩ rfl).2.2.2.2.2.2.2.2.1 rfl⟩

/-- Claim C2, counterexample: a validation-passing form state carrying
a category entered earlier serializes that category even though the
category section is not visible for its current departments, refuting
the claim's visibility invariant. -/
theorem hidden_field_still_serialized :
    showCategory staleCategoryForm.fromDepartment staleCategoryForm.toDepartment = false ∧
    validateBooking staleCategoryForm = true ∧
    (buildBookingData "tok1abcd" staleCategoryForm).category = "Knowledge Books" ∧
    (serializeBooking (buildBookingData "tok1abcd" staleCategoryForm)).lookup "category" =
      some (.str "Knowledge Books") := by decide

/-- Claim C5, amended: at mount each reference slot is populated
exactly when its own read's envelope has `success` and data; a failing
read leaves its own slot empty while each other slot is a function of
its own read alone (failures independent per read); but no error
notification fires for a per-read envelope failure — the load-time
error toast is only reachable from a thrown exception, which the
gateway's catch-all prevents. -/
theorem loadData_slots_independent
    (o1 o1' : FetchOutcome (List OptionData)) (o2 o2' : FetchOutcome (List ExpenseData))
    (o3 o3' : FetchOutcome (List DonorData)) :
    ((makeRequest o1).success = false → (loadData o1 o2 o3).options = []) ∧
    (∀ l, (makeRequest o1).success = true → (makeRequest o1).data = some l →
      (loadData o1 o2 o3).options = l) ∧
    ((makeRequest o2).success = false → (loadData o1 o2 o3).expenses = []) ∧
    (∀ l, (makeRequest o2).success = true → (makeRequest o2).data = some l →
      (loadData o1 o2 o3).expenses = l) ∧
    ((makeRequest o3).success = false → (loadData o1 o2 o3).donors = []) ∧
    (∀ l, (makeRequest o3).success = true → (makeRequest o3).data = some l →
      (loadData o1 o2 o3).donors = l) ∧
    (loadData o1 o2 o3).options = (loadData o1 o2' o3').options ∧
    (loadData o1 o2 o3).expenses = (loadData o1' o2 o3').expenses ∧
    (loadData o1 o2 o3).donors = (loadData o1' o2' o3).donors ∧
    (loadData o1 o2 o3).errorToastFired = false ∧
    (loadData o1 o2 o3).loading = false := by
  refine ⟨?_, ?_, ?_, ?_, ?_, ?_, rfl, rfl, rfl, rfl, rfl⟩
  · intro hs; simp [loadData, slotFrom, hs]
  · intro l hs hdata; simp [loadData, slotFrom, hs, hdata]
  · intro hs; simp [loadData, slotFrom, hs]
  · intro l hs hdata; simp [loadData, slotFrom, hs, hdata]
  · intro hs; simp [loadData, slotFrom, hs]
  · intro l hs hdata; simp [loadData, slotFrom, hs, hdata]

/-- Claim C5, witness: a concrete failing options read leaves the
options slot empty. -/
theorem loadData_slots_independent_witness :
    (makeRequest failingOptionsOutcome).success = false ∧
    (loadData failingOptionsOutcome okExpensesOutcome okDonorsOutcome).options = [] :=
  ⟨rfl, (loadData_slots_independent failingOptionsOutcome failingOptionsOutcome
    okExpensesOutcome okExpensesOutcome okDonorsOutcome okDonorsOutcome).1 rfl⟩

/-- Claim C5, counterexample: with an options read whose envelope
reports failure and successful expenses/donors reads, the options slot
stays empty and the other two populate, but no error notification
fires — refuting the claim's "a per-read failure fires an error
notification". -/
theorem perread_failure_no_toast :
    (makeRequest failingOptionsOutcome).success = false ∧
    (loadData failingOptionsOutcome okExpensesOutcome okDonorsOutcome).options = [] ∧
    (loadData failingOptionsOutcome okExpensesOutcome okDonorsOutcome).expenses = [⟨"A", "x", "", "", ""⟩] ∧
    (loadData failingOptionsOutcome okExpensesOutcome okDonorsOutcome).donors = [donorEx] ∧
    (loadData failingOptionsOutcome okExpensesOutcome okDonorsOutcome).errorToastFired = false := by
  decide

/-- Claim C7: the four visibility booleans are exact string equalities
against the fixed department names, each depends only on its own
component of the pair (pure by construction), and they are mutually
independent — the category and personal-account sections can be visible
simultaneously. -/
theorem visibility_flags (fromDepartment toDepartment : String) :
    (showCategory fromDepartment toDepartment = true ↔ fromDepartment = "Books-Dasosmi") ∧
    (showItemsDetails fromDepartment toDepartment = true ↔ fromDepartment = "Expenses-Dasosmi") ∧
    (showDonorDetails fromDepartment toDepartment = true ↔
      fromDepartment = "Dasosmi" ∨ fromDepartment = "Corporate Dasosmi") ∧
    (showPersonalAccount fromDepartment toDepartment = true ↔ toDepartment = "Personal Account") ∧
    (∀ t u, showCategory fromDepartment t = showCategory fromDepartment u) ∧
    (∀ t u, showItemsDetails fromDepartment t = showItemsDetails fromDepartment u) ∧
    (∀ t u, showDonorDetails fromDepartment t = showDonorDetails fromDepartment u) ∧
    (∀ f g, showPersonalAccount f toDepartment = showPersonalAccount g toDepartment) ∧
    showCategory "Books-Dasosmi" "Personal Account" = true ∧
    showPersonalAccount "Books-Dasosmi" "Personal Account" = true := by
  simp [showCategory, showItemsDetails, showDonorDetails, showPersonalAccount]

/-- Claim C8: for any donor with at least one non-empty mobile
spelling, the mobile number used in the display label and in the
search-candidate text is the first non-empty of `'Mobile No.'` then
`'Mobile No'`, and the full labels are built around it. -/
theorem donor_mobile_first_nonempty (d : DonorData)
    (h : d.mobileNoDot ≠ "" ∨ d.mobileNo ≠ "") :
    displayMobile d = firstNonEmptyMobile d ∧
    searchMobile d = firstNonEmptyMobile d ∧
    donorItemLabel d = d.donorName ++ " - " ++ firstNonEmptyMobile d ++ " - " ++ d.Address ∧
    donorSearchValue d = d.donorName ++ " " ++ firstNonEmptyMobile d ++ " " ++ d.Address := by
  have key1 : displayMobile d = firstNonEmptyMobile d := by
    unfold displayMobile jsOr firstNonEmptyMobile
    by_cases h1 : d.mobileNoDot = ""
    · rcases h with h2 | h2
      · exact absurd h1 h2
      · simp [h1, h2]
    · simp [h1]
  have key2 : searchMobile d = firstNonEmptyMobile d := by
    unfold searchMobile jsOr firstNonEmptyMobile
    by_cases h1 : d.mobileNoDot = ""
    · rcases h with h2 | h2
      · exact absurd h1 h2
      · simp [h1, h2]
    · simp [h1]
  exact ⟨key1, key2, by unfold donorItemLabel; rw [key1], by unfold donorSearchValue; rw [key2]⟩

/-- Claim C8, witness: the spec's donor with an empty `'Mobile No.'`
and `'Mobile No' = "98765"` displays `"98765"`, not `"No Mobile"`. -/
theorem donor_mobile_first_nonempty_witness :
    (donorEx.mobileNoDot ≠ "" ∨ donorEx.mobileNo ≠ "") ∧
    displayMobile donorEx = firstNonEmptyMobile donorEx ∧
    firstNonEmptyMobile donorEx = "98765" ∧
    displayMobile donorEx ≠ "No Mobile" :=
  ⟨Or.inr (by decide), (donor_mobile_first_nonempty donorEx (Or.inr (by decide))).1,
   by decide, by decide⟩

/-- Claim C9: a submit attempt whose write fails (any outcome whose
envelope reports failure, including every transport error) leaves the
entered form values unchanged and clears the in-flight flag; the form
is reset to the defaults exactly on a success envelope. -/
theorem failed_write_preserves_form (st : SubmitState) (freshId : String) (today : JsDate)
    (w : FetchOutcome BookingData) (hfail : (makeRequest w).success = false) :
    (onSubmitStep st freshId today w).1.formValues = st.formValues ∧
    (onSubmitStep st freshId today w).1.submitting = false ∧
    (∀ w' : FetchOutcome BookingData, (makeRequest w').success = true →
      (onSubmitStep st freshId today w').1.formValues = defaultFormState today ∧
      (onSubmitStep st freshId today w').1.submitting = false) := by
  refine ⟨?_, ?_, ?_⟩
  · simp [onSubmitStep, hfail]
  · simp [onSubmitStep, hfail]
  · intro w' hs
    constructor <;> simp [onSubmitStep, hs]

/-- Claim C9, witness: a concrete transport failure leaves a concrete
form untouched and resubmittable. -/
theorem failed_write_preserves_form_witness :
    (makeRequest (T := BookingData) (.networkError "Failed to fetch")).success = false ∧
    (onSubmitStep ⟨okForm, true⟩ "ab12tx9q" ⟨2026, 10, 11⟩
      (.networkError "Failed to fetch")).1.formValues = okForm ∧
    (onSubmitStep ⟨okForm, true⟩ "ab12tx9q" ⟨2026, 10, 11⟩
      (.networkError "Failed to fetch")).1.submitting = false :=
  ⟨rfl,
   (failed_write_preserves_form ⟨okForm, true⟩ "ab12tx9q" ⟨2026, 10, 11⟩
     (.networkError "Failed to fetch") rfl).1,
   (failed_write_preserves_form ⟨okForm, true⟩ "ab12tx9q" ⟨2026, 10, 11⟩
     (.networkError "Failed to fetch") rfl).2.1⟩

/-- Helper: every rendered base-36 digit is in `0`-`9` or `a`-`z`. -/
theorem b36Char_isBase36 : ∀ d : Fin 36, isBase36Char (b36Char d) = true := by decide

/-- Claim C10: every generated id has at most 8 characters, all drawn
from the base-36 digits 0-9 and lowercase a-z; it can be shorter than 8
— the random value 0 yields the empty id and a one-fractional-digit
value yields a single character — so a fixed 8-character length is not
guaranteed. -/
theorem generateId_shape (digits : List (Fin 36)) :
    (generateId digits).length ≤ 8 ∧
    (∀ c, c ∈ (generateId digits).data → isBase36Char c = true) ∧
    generateId [] = "" ∧
    generateId [(18 : Fin 36)] = "i" ∧
    (generateId [(18 : Fin 36)]).length ≠ 8 := by
  refine ⟨?_, ?_, by decide, by decide, by decide⟩
  · exact List.length_take_le _ _
  · intro c hc
    have hc' : c ∈ ((jsToString36 digits).data.drop 2).take 8 := hc
    have hc2 : c ∈ (jsToString36 digits).data.drop 2 := List.mem_of_mem_take hc'
    by_cases hnil : digits = []
    · subst hnil
      simp [jsToString36] at hc2
    · have hdata : (jsToString36 digits).data = '0' :: '.' :: digits.map b36Char := by
        unfold jsToString36
        rw [if_neg hnil]
        rfl
      rw [hdata] at hc2
      simp only [List.drop_succ_cons, List.drop_zero] at hc2
      obtain ⟨e, _, rfl⟩ := List.mem_map.mp hc2
      exact b36Char_isBase36 e

end Dasosmi
